import Mathlib

/-!
Verification development for the Stagehand chrome-extension background
script (`chrome_extension/background.js`).  The script's global mutable
state (JavaScript `Map`s and `Set`s) is embedded as insertion-ordered
association lists, its message handlers as pure functions from an
explicit background state (plus an environment giving the outcomes of
the `chrome.*` platform calls) to results, successor states, and a
trace of the external calls performed.
-/

namespace Stagehand

/-- Lookup in a JavaScript `Map` modelled as an insertion-ordered
association list (`Map.prototype.get`). -/
def mapGet {α β : Type} [DecidableEq α] : List (α × β) → α → Option β
  | [], _ => none
  | (k', v) :: rest, k => if k' = k then some v else mapGet rest k

/-- Update in a JavaScript `Map` (`Map.prototype.set`): replaces the
value in place when the key is present, otherwise appends the new entry
at the end, matching `Map` insertion order. -/
def mapSet {α β : Type} [DecidableEq α] : List (α × β) → α → β → List (α × β)
  | [], k, v => [(k, v)]
  | (k', v') :: rest, k, v =>
    if k' = k then (k', v) :: rest else (k', v') :: mapSet rest k v

/-- Deletion from a JavaScript `Map` (`Map.prototype.delete`). -/
def mapDelete {α β : Type} [DecidableEq α] (m : List (α × β)) (k : α) : List (α × β) :=
  m.filter (fun p => ¬ p.1 = k)

/-- Insertion into a JavaScript `Set` (`Set.prototype.add`): a no-op on
a member, otherwise appends at the end. -/
def setAdd {α : Type} [DecidableEq α] (s : List α) (x : α) : List α :=
  if x ∈ s then s else s ++ [x]

/-- Removal from a JavaScript `Set` (`Set.prototype.delete`). -/
def setDel {α : Type} [DecidableEq α] (s : List α) (x : α) : List α :=
  s.filter (fun y => ¬ y = x)

theorem mapGet_mapSet_self {α β : Type} [DecidableEq α] (m : List (α × β)) (k : α) (v : β) :
    mapGet (mapSet m k v) k = some v := by
  induction m with
  | nil => simp [mapGet, mapSet]
  | cons p rest ih =>
    obtain ⟨k', v'⟩ := p
    by_cases h : k' = k <;> simp [mapGet, mapSet, h, ih]

theorem mapSet_of_mapGet_eq {α β : Type} [DecidableEq α] {m : List (α × β)} {k : α} {v : β}
    (h : mapGet m k = some v) : mapSet m k v = m := by
  induction m with
  | nil => simp [mapGet] at h
  | cons p rest ih =>
    obtain ⟨k', v'⟩ := p
    by_cases hk : k' = k
    · simp [mapGet, hk] at h
      simp [mapSet, hk, h]
    · simp [mapGet, hk] at h
      simp [mapSet, hk, ih h]

theorem mapGet_mapDelete_self {α β : Type} [DecidableEq α] (m : List (α × β)) (k : α) :
    mapGet (mapDelete m k) k = none := by
  induction m with
  | nil => simp [mapGet, mapDelete]
  | cons p rest ih =>
    obtain ⟨k', v'⟩ := p
    by_cases h : k' = k
    · simpa [mapDelete, h] using ih
    · simpa [mapDelete, mapGet, h] using ih

theorem mapGet_mem {α β : Type} [DecidableEq α] {m : List (α × β)} {k : α} {v : β}
    (h : mapGet m k = some v) : (k, v) ∈ m := by
  induction m with
  | nil => simp [mapGet] at h
  | cons p rest ih =>
    obtain ⟨k', v'⟩ := p
    by_cases hk : k' = k
    · simp [mapGet, hk] at h
      simp [hk, h]
    · simp [mapGet, hk] at h
      exact List.mem_cons_of_mem _ (ih h)

theorem setAdd_mem_self {α : Type} [DecidableEq α] (s : List α) (x : α) :
    x ∈ setAdd s x := by
  unfold setAdd
  by_cases h : x ∈ s <;> simp [h]

theorem setAdd_of_mem {α : Type} [DecidableEq α] {s : List α} {x : α} (h : x ∈ s) :
    setAdd s x = s := by
  simp [setAdd, h]

theorem setDel_of_not_mem {α : Type} [DecidableEq α] {s : List α} {x : α} (h : x ∉ s) :
    setDel s x = s := by
  unfold setDel
  rw [List.filter_eq_self]
  intro a ha
  simp only [decide_eq_true_eq]
  intro hax
  exact h (hax ▸ ha)

/-- JSON-like values exchanged with the chrome platform APIs and placed
in message payloads (`result`, `params`, cookies, ...). -/
inductive JVal : Type where
  | null : JVal
  | bool : Bool → JVal
  | num : Nat → JVal
  | str : String → JVal
  | arr : List JVal → JVal
  | obj : List (String × JVal) → JVal

/-- Field lookup on a JSON-like object value (`value.field` in JS);
`none` models `undefined`. -/
def jGet : JVal → String → Option JVal
  | JVal.obj fields, k => mapGet fields k
  | _, _ => none

/-- The tab data the `chrome.tabs` API reports for one tab. -/
structure TabInfo : Type where
  tabId : Nat
  url : String
  title : String
  active : Bool
  index : Nat
deriving DecidableEq

/-- One entry of the `activeSessions` map:
`tabId -> {attached: boolean, listeners: Set}`.  The `listeners` set
holds the per-call forwarding closures added by
`setupCDPEventForwarding`; each call creates a fresh closure, so the
set is embedded by its cardinality. -/
structure SessionInfo : Type where
  attached : Bool
  listeners : Nat
deriving DecidableEq

/-- The `cdpEventListeners` registry:
`tabId -> Map<eventName, Set<listenerId>>`. -/
abbrev CDPRegistry : Type := List (Nat × List (String × List Nat))

/-- WebSocket `readyState` values. -/
def WS_CONNECTING : Nat := 0

/-- WebSocket `readyState` value for an open connection. -/
def WS_OPEN : Nat := 1

/-- The background script's global mutable state: the server socket
(`serverWs`, present with its `readyState` when non-null), the
reconnection attempt counter, the `activeSessions` map and the
`cdpEventListeners` registry. -/
structure BgState : Type where
  serverWs : Option Nat
  reconnectAttempts : Nat
  activeSessions : List (Nat × SessionInfo)
  cdpEventListeners : CDPRegistry
deriving DecidableEq

/-- Trace entries recording the external `chrome.*` calls a handler
performs; claims inspect the debugger calls, the rest are recorded by
name. -/
inductive ExtCall : Type where
  | attach : Nat → ExtCall
  | detach : Nat → ExtCall
  | sendCommand : Nat → String → ExtCall
  | addOnEvent : ExtCall
  | other : String → ExtCall
deriving DecidableEq

/-- An inbound envelope from the Python server, with the fields the
handlers destructure; absent JS fields take their `undefined`-side
defaults. -/
structure InMsg : Type where
  id : Option Nat := none
  type : String
  tabId : Nat := 0
  method : String := ""
  params : JVal := JVal.obj []
  script : String := ""
  args : JVal := JVal.arr []
  url : String := ""
  options : JVal := JVal.obj []
  eventName : String := ""
  listenerId : Nat := 0
  cookies : List JVal := []

/-- An outbound envelope handed to `sendToServer` (timestamps and error
stacks, pure platform artefacts, are not embedded). -/
structure OutMsg : Type where
  id : Option Nat := none
  type : String
  result : Option JVal := none
  error : Option String := none
  success : Option Bool := none
  tabId : Option Nat := none
  method : Option String := none
  params : Option JVal := none
  reason : Option String := none

/-- Outcomes of the `chrome.*` platform calls the background script
awaits; an `Except.error` is a rejected promise carrying the error
message. -/
structure Env : Type where
  attach : Nat → Except String Unit
  detach : Nat → Except String Unit
  sendCommand : Nat → String → JVal → Except String JVal
  tabsQueryActive : Except String (List TabInfo)
  tabsQueryAll : Except String (List TabInfo)
  executeScript : Nat → String → JVal → Except String (List JVal)
  tabsUpdate : Nat → String → Except String Unit
  navWait : Nat → Except String Unit
  tabsCreate : String → Except String TabInfo
  tabsRemove : Nat → Except String Unit
  tabsGet : Nat → Except String TabInfo
  cookieSet : JVal → Except String Unit
  cookiesGetAll : String → Except String (List JVal)
  injectScript : Nat → String → Except String Nat

/-- Model of `sendToServer(message)`: hands the message to `serverWs.send` only
when the socket exists and its `readyState` is `OPEN`; otherwise the
message is dropped (the script logs an error) — there is no outbound
queue, and no state is touched.  Returns the message given to `send`
(if any) together with the unchanged state. -/
def sendToServer (st : BgState) (m : OutMsg) : Option OutMsg × BgState :=
  match st.serverWs with
  | some rs => if rs = WS_OPEN then (some m, st) else (none, st)
  | none => (none, st)

/-- The guard `activeSessions.has(tabId) && activeSessions.get(tabId).attached`. -/
def attachedIn (st : BgState) (t : Nat) : Bool :=
  match mapGet st.activeSessions t with
  | some s => s.attached
  | none => false

/-- Model of `setupCDPEventForwarding(tabId)`: ensures an `activeSessions` entry
exists, adds a fresh forwarding closure to its `listeners` set, and
registers the closure with `chrome.debugger.onEvent`. -/
def setupCDPEventForwarding (st : BgState) (t : Nat) : BgState × List ExtCall :=
  let st1 :=
    match mapGet st.activeSessions t with
    | some _ => st
    | none =>
      { st with activeSessions := mapSet st.activeSessions t ⟨true, 0⟩ }
  match mapGet st1.activeSessions t with
  | some s =>
    ({ st1 with activeSessions := mapSet st1.activeSessions t ⟨s.attached, s.listeners + 1⟩ },
     [ExtCall.addOnEvent])
  | none => (st1, [ExtCall.addOnEvent])

/-- Model of `attachDebugger(tabId)`: returns `{attached: true, alreadyAttached:
true}` without touching anything when the session is already attached;
otherwise performs `chrome.debugger.attach`, records a fresh session
and sets up event forwarding. -/
def attachDebugger (env : Env) (st : BgState) (t : Nat) :
    Except String JVal × BgState × List ExtCall :=
  if attachedIn st t then
    (Except.ok (JVal.obj [("attached", JVal.bool true), ("alreadyAttached", JVal.bool true)]),
     st, [])
  else
    match env.attach t with
    | Except.error e => (Except.error e, st, [ExtCall.attach t])
    | Except.ok _ =>
      let st1 := { st with activeSessions := mapSet st.activeSessions t ⟨true, 0⟩ }
      let p := setupCDPEventForwarding st1 t
      (Except.ok (JVal.obj [("attached", JVal.bool true)]), p.1, ExtCall.attach t :: p.2)

/-- Model of `detachDebugger(tabId)`: a non-error `"Not attached"` result when
there is no attached session; otherwise `chrome.debugger.detach`, then
removal of the session and of the tab's whole event-listener map. -/
def detachDebugger (env : Env) (st : BgState) (t : Nat) :
    Except String JVal × BgState × List ExtCall :=
  if attachedIn st t then
    match env.detach t with
    | Except.error e => (Except.error e, st, [ExtCall.detach t])
    | Except.ok _ =>
      (Except.ok (JVal.obj [("detached", JVal.bool true)]),
       { st with
          activeSessions := mapDelete st.activeSessions t,
          cdpEventListeners := mapDelete st.cdpEventListeners t },
       [ExtCall.detach t])
  else
    (Except.ok (JVal.obj [("detached", JVal.bool false), ("reason", JVal.str "Not attached")]),
     st, [])

/-- Model of `sendCDPCommand(tabId, method, params)`: first ensures the debugger
is attached (auto-attaching via `attachDebugger` when it is not), then
issues `chrome.debugger.sendCommand`. -/
def sendCDPCommand (env : Env) (st : BgState) (t : Nat) (method : String) (params : JVal) :
    Except String JVal × BgState × List ExtCall :=
  if attachedIn st t then
    (env.sendCommand t method params, st, [ExtCall.sendCommand t method])
  else
    match attachDebugger env st t with
    | (Except.error e, st1, cs) => (Except.error e, st1, cs)
    | (Except.ok _, st1, cs) =>
      (env.sendCommand t method params, st1, cs ++ [ExtCall.sendCommand t method])

/-- Model of `registerCDPListener` restricted to the `cdpEventListeners`
registry: creates the per-tab map and per-event set on demand, then
adds the listener id to the set. -/
def regAdd (r : CDPRegistry) (t : Nat) (e : String) (l : Nat) : CDPRegistry :=
  let r1 := match mapGet r t with
    | some _ => r
    | none => mapSet r t []
  let tab := (mapGet r1 t).getD []
  let tab1 := match mapGet tab e with
    | some _ => tab
    | none => mapSet tab e []
  let s := (mapGet tab1 e).getD []
  mapSet r1 t (mapSet tab1 e (setAdd s l))

/-- Model of `unregisterCDPListener` restricted to the registry: removes the
listener id when the (tab, eventName) set exists, deleting the
eventName key when its set becomes empty. -/
def regRemove (r : CDPRegistry) (t : Nat) (e : String) (l : Nat) : CDPRegistry :=
  match mapGet r t with
  | none => r
  | some tab =>
    match mapGet tab e with
    | none => r
    | some s =>
      let s1 := setDel s l
      if s1.length = 0 then mapSet r t (mapDelete tab e)
      else mapSet r t (mapSet tab e s1)

/-- Model of `registerCDPListener(tabId, eventName, listenerId)` as a message
handler. -/
def registerCDPListener (st : BgState) (t : Nat) (e : String) (l : Nat) :
    Except String JVal × BgState × List ExtCall :=
  (Except.ok (JVal.obj [("registered", JVal.bool true)]),
   { st with cdpEventListeners := regAdd st.cdpEventListeners t e l }, [])

/-- Model of `unregisterCDPListener(tabId, eventName, listenerId)` as a message
handler. -/
def unregisterCDPListener (st : BgState) (t : Nat) (e : String) (l : Nat) :
    Except String JVal × BgState × List ExtCall :=
  (Except.ok (JVal.obj [("unregistered", JVal.bool true)]),
   { st with cdpEventListeners := regRemove st.cdpEventListeners t e l }, [])

/-- The forwarding closure created by `setupCDPEventForwarding(tabId)`
(its `tabId` capture is `forTab`): on a `chrome.debugger.onEvent`
notification from `sourceTab` it forwards a `CDP_EVENT` envelope to the
server exactly when the source is its own tab and the registry has a
listener-set entry for the event's method; otherwise the event is
dropped — the closure keeps no buffer and mutates no state. -/
def cdpForwardListener (forTab : Nat) (st : BgState) (sourceTab : Nat)
    (method : String) (params : JVal) : Option OutMsg :=
  if sourceTab = forTab then
    match mapGet st.cdpEventListeners forTab with
    | some tab =>
      if (mapGet tab method).isSome then
        some { type := "CDP_EVENT", tabId := some forTab,
               method := some method, params := some params }
      else none
    | none => none
  else none

/-- Model of `getActiveTab()`: queries the active tab of the current window and
fails with `'No active tab found'` on an empty result. -/
def getActiveTab (env : Env) (st : BgState) :
    Except String JVal × BgState × List ExtCall :=
  match env.tabsQueryActive with
  | Except.error e => (Except.error e, st, [ExtCall.other "tabs.query"])
  | Except.ok [] => (Except.error "No active tab found", st, [ExtCall.other "tabs.query"])
  | Except.ok (tab :: _) =>
    (Except.ok (JVal.obj [("tabId", JVal.num tab.tabId), ("url", JVal.str tab.url),
      ("title", JVal.str tab.title)]), st, [ExtCall.other "tabs.query"])

/-- Model of `evaluateScript(tabId, script, args)`: runs the script through
`chrome.scripting.executeScript` and returns the first frame's result,
or `null` when no frame produced one. -/
def evaluateScript (env : Env) (st : BgState) (t : Nat) (script : String) (args : JVal) :
    Except String JVal × BgState × List ExtCall :=
  match env.executeScript t script args with
  | Except.error e => (Except.error e, st, [ExtCall.other "scripting.executeScript"])
  | Except.ok [] => (Except.ok JVal.null, st, [ExtCall.other "scripting.executeScript"])
  | Except.ok (r :: _) => (Except.ok r, st, [ExtCall.other "scripting.executeScript"])

/-- Model of `navigateTo(tabId, url, options)`: updates the tab's url, waits for
navigation when `options.waitUntil` is set, and reports
`{navigated: true, url}`. -/
def navigateTo (env : Env) (st : BgState) (t : Nat) (url : String) (options : JVal) :
    Except String JVal × BgState × List ExtCall :=
  match env.tabsUpdate t url with
  | Except.error e => (Except.error e, st, [ExtCall.other "tabs.update"])
  | Except.ok _ =>
    if (jGet options "waitUntil").isSome then
      match env.navWait t with
      | Except.error e => (Except.error e, st, [ExtCall.other "tabs.update"])
      | Except.ok _ =>
        (Except.ok (JVal.obj [("navigated", JVal.bool true), ("url", JVal.str url)]),
         st, [ExtCall.other "tabs.update"])
    else
      (Except.ok (JVal.obj [("navigated", JVal.bool true), ("url", JVal.str url)]),
       st, [ExtCall.other "tabs.update"])

/-- Model of `createTab(url)`: creates a tab at the given url, defaulting to
`about:blank` on a falsy url. -/
def createTab (env : Env) (st : BgState) (url : String) :
    Except String JVal × BgState × List ExtCall :=
  let u := if url = "" then "about:blank" else url
  match env.tabsCreate u with
  | Except.error e => (Except.error e, st, [ExtCall.other "tabs.create"])
  | Except.ok tab =>
    (Except.ok (JVal.obj [("tabId", JVal.num tab.tabId), ("url", JVal.str tab.url),
      ("title", JVal.str tab.title)]), st, [ExtCall.other "tabs.create"])

/-- Model of `closeTab(tabId)`: removes the tab, then cleans up its session via
`detachDebugger` when one exists. -/
def closeTab (env : Env) (st : BgState) (t : Nat) :
    Except String JVal × BgState × List ExtCall :=
  match env.tabsRemove t with
  | Except.error e => (Except.error e, st, [ExtCall.other "tabs.remove"])
  | Except.ok _ =>
    if (mapGet st.activeSessions t).isSome then
      match detachDebugger env st t with
      | (Except.error e, st1, cs) => (Except.error e, st1, ExtCall.other "tabs.remove" :: cs)
      | (Except.ok _, st1, cs) =>
        (Except.ok (JVal.obj [("closed", JVal.bool true)]), st1,
         ExtCall.other "tabs.remove" :: cs)
    else
      (Except.ok (JVal.obj [("closed", JVal.bool true)]), st, [ExtCall.other "tabs.remove"])

/-- Model of `getTabInfo(tabId)`. -/
def getTabInfo (env : Env) (st : BgState) (t : Nat) :
    Except String JVal × BgState × List ExtCall :=
  match env.tabsGet t with
  | Except.error e => (Except.error e, st, [ExtCall.other "tabs.get"])
  | Except.ok tab =>
    (Except.ok (JVal.obj [("tabId", JVal.num tab.tabId), ("url", JVal.str tab.url),
      ("title", JVal.str tab.title), ("active", JVal.bool tab.active),
      ("index", JVal.num tab.index)]), st, [ExtCall.other "tabs.get"])

/-- Model of `getAllTabs()`. -/
def getAllTabs (env : Env) (st : BgState) :
    Except String JVal × BgState × List ExtCall :=
  match env.tabsQueryAll with
  | Except.error e => (Except.error e, st, [ExtCall.other "tabs.query"])
  | Except.ok tabs =>
    (Except.ok (JVal.arr (tabs.map fun tab =>
      JVal.obj [("tabId", JVal.num tab.tabId), ("url", JVal.str tab.url),
        ("title", JVal.str tab.title), ("active", JVal.bool tab.active),
        ("index", JVal.num tab.index)])), st, [ExtCall.other "tabs.query"])

/-- Model of `setCookies(cookies)`: sets each cookie, collecting per-cookie
success or failure records. -/
def setCookies (env : Env) (st : BgState) (cookies : List JVal) :
    Except String JVal × BgState × List ExtCall :=
  (Except.ok (JVal.arr (cookies.map fun c =>
    match env.cookieSet c with
    | Except.ok _ => JVal.obj [("success", JVal.bool true), ("cookie", c)]
    | Except.error e =>
      JVal.obj [("success", JVal.bool false), ("cookie", c), ("error", JVal.str e)])),
   st, [ExtCall.other "cookies.set"])

/-- Model of `getCookies(url)`. -/
def getCookies (env : Env) (st : BgState) (url : String) :
    Except String JVal × BgState × List ExtCall :=
  match env.cookiesGetAll url with
  | Except.error e => (Except.error e, st, [ExtCall.other "cookies.getAll"])
  | Except.ok cs => (Except.ok (JVal.arr cs), st, [ExtCall.other "cookies.getAll"])

/-- Model of `injectScript(tabId, script)`. -/
def injectScript (env : Env) (st : BgState) (t : Nat) (script : String) :
    Except String JVal × BgState × List ExtCall :=
  match env.injectScript t script with
  | Except.error e => (Except.error e, st, [ExtCall.other "scripting.executeScript"])
  | Except.ok k =>
    (Except.ok (JVal.obj [("injected", JVal.bool true), ("results", JVal.num k)]),
     st, [ExtCall.other "scripting.executeScript"])

/-- Wraps a request handler's outcome for the dispatch switch. -/
def asReq (x : Except String JVal × BgState × List ExtCall) :
    Option (Except String JVal) × BgState × List ExtCall :=
  (some x.1, x.2.1, x.2.2)

/-- The `switch (type)` of `handleServerMessage`: `none` in the first
component is the `PONG` early return; every other known type runs its
handler, and an unknown type is the thrown
`Unknown message type: ...` error. -/
def dispatch (env : Env) (st : BgState) (msg : InMsg) :
    Option (Except String JVal) × BgState × List ExtCall :=
  match msg.type with
  | "GET_ACTIVE_TAB" => asReq (getActiveTab env st)
  | "ATTACH_DEBUGGER" => asReq (attachDebugger env st msg.tabId)
  | "DETACH_DEBUGGER" => asReq (detachDebugger env st msg.tabId)
  | "CDP_COMMAND" => asReq (sendCDPCommand env st msg.tabId msg.method msg.params)
  | "EVALUATE" => asReq (evaluateScript env st msg.tabId msg.script msg.args)
  | "NAVIGATE" => asReq (navigateTo env st msg.tabId msg.url msg.options)
  | "CREATE_TAB" => asReq (createTab env st msg.url)
  | "CLOSE_TAB" => asReq (closeTab env st msg.tabId)
  | "GET_TAB_INFO" => asReq (getTabInfo env st msg.tabId)
  | "GET_ALL_TABS" => asReq (getAllTabs env st)
  | "SET_COOKIES" => asReq (setCookies env st msg.cookies)
  | "GET_COOKIES" => asReq (getCookies env st msg.url)
  | "INJECT_SCRIPT" => asReq (injectScript env st msg.tabId msg.script)
  | "REGISTER_CDP_LISTENER" => asReq (registerCDPListener st msg.tabId msg.eventName msg.listenerId)
  | "UNREGISTER_CDP_LISTENER" => asReq (unregisterCDPListener st msg.tabId msg.eventName msg.listenerId)
  | "PONG" => (none, st, [])
  | t => (some (Except.error ("Unknown message type: " ++ t)), st, [])

/-- Model of `handleServerMessage(message)`: dispatches on the message type and
wraps the outcome in a `RESPONSE` envelope carrying the request's `id`
— `success: true` with the result, or `success: false` with the error
message; `PONG` produces no response. -/
def handleServerMessage (env : Env) (st : BgState) (msg : InMsg) :
    Option OutMsg × BgState × List ExtCall :=
  match dispatch env st msg with
  | (none, st1, cs) => (none, st1, cs)
  | (some (Except.ok v), st1, cs) =>
    (some { id := msg.id, type := "RESPONSE", result := some v, success := some true },
     st1, cs)
  | (some (Except.error e), st1, cs) =>
    (some { id := msg.id, type := "RESPONSE", error := some e, success := some false },
     st1, cs)

/-- The `chrome.debugger.onDetach` listener: when a session exists for
the detached tab it removes the session and the tab's whole
event-listener map and notifies the server with `DEBUGGER_DETACHED`. -/
def onDebuggerDetach (st : BgState) (t : Nat) (reason : String) :
    BgState × Option OutMsg :=
  if (mapGet st.activeSessions t).isSome then
    ({ st with
        activeSessions := mapDelete st.activeSessions t,
        cdpEventListeners := mapDelete st.cdpEventListeners t },
     some { type := "DEBUGGER_DETACHED", tabId := some t, reason := some reason })
  else (st, none)

/-- The `chrome.tabs.onRemoved` listener: same cleanup, notifying the
server with `TAB_CLOSED`. -/
def onTabRemoved (st : BgState) (t : Nat) : BgState × Option OutMsg :=
  if (mapGet st.activeSessions t).isSome then
    ({ st with
        activeSessions := mapDelete st.activeSessions t,
        cdpEventListeners := mapDelete st.cdpEventListeners t },
     some { type := "TAB_CLOSED", tabId := some t })
  else (st, none)

/-- Model of `MAX_RECONNECT_ATTEMPTS`. -/
def MAX_RECONNECT_ATTEMPTS : Nat := 5

/-- The backoff delay the `onclose` handler computes once the attempt
counter holds `attempt`: `Math.min(1000 * Math.pow(2, attempt), 10000)`. -/
def reconnectDelay (attempt : Nat) : Nat :=
  min (1000 * 2 ^ attempt) 10000

/-- The reconnect decision of the `serverWs.onclose` handler, as a
function of the current `reconnectAttempts` counter: when the counter
is below `MAX_RECONNECT_ATTEMPTS` it increments the counter and
schedules `connectToServer` after the computed delay (returned as
`(newCounter, delay)`); otherwise no reconnection is scheduled. -/
def reconnectOnClose (reconnectAttempts : Nat) : Option (Nat × Nat) :=
  if reconnectAttempts < MAX_RECONNECT_ATTEMPTS then
    some (reconnectAttempts + 1, reconnectDelay (reconnectAttempts + 1))
  else none

/-- A listener id is subscribed to the (tab, eventName) pair when the
registry's set for that pair contains it. -/
def subscribedB (r : CDPRegistry) (t : Nat) (e : String) (l : Nat) : Bool :=
  match mapGet r t with
  | some tab =>
    match mapGet tab e with
    | some s => decide (l ∈ s)
    | none => false
  | none => false

/-- Registry well-formedness: no event-name key maps to an empty
listener set (register always inserts into the set it creates, and
unregister deletes a key whose set became empty, so every reachable
registry satisfies this). -/
def RegWfB (r : CDPRegistry) : Bool :=
  r.all fun p => p.2.all fun q => !q.2.isEmpty

/-- Iterated `attachDebugger` calls against a fixed tab, threading the
state. -/
def attachIterate (env : Env) (t : Nat) : Nat → BgState → BgState
  | 0, st => st
  | n + 1, st => attachIterate env t n (attachDebugger env st t).2.1

/-- A sample platform environment in which every chrome call
succeeds. -/
def env0 : Env where
  attach := fun _ => Except.ok ()
  detach := fun _ => Except.ok ()
  sendCommand := fun _ _ _ => Except.ok JVal.null
  tabsQueryActive := Except.ok [⟨1, "https://example.com", "Example", true, 0⟩]
  tabsQueryAll := Except.ok []
  executeScript := fun _ _ _ => Except.ok []
  tabsUpdate := fun _ _ => Except.ok ()
  navWait := fun _ => Except.ok ()
  tabsCreate := fun u => Except.ok ⟨2, u, "", false, 1⟩
  tabsRemove := fun _ => Except.ok ()
  tabsGet := fun t => Except.ok ⟨t, "", "", false, 0⟩
  cookieSet := fun _ => Except.ok ()
  cookiesGetAll := fun _ => Except.ok []
  injectScript := fun _ _ => Except.ok 0

/-- A background state with an open server socket and no sessions. -/
def stEmpty : BgState := ⟨some WS_OPEN, 0, [], []⟩

/-- A background state whose server socket is gone (`serverWs = null`). -/
def stClosed : BgState := ⟨none, 0, [], []⟩

/-- A background state with tab 1 attached and one subscriber (id 5)
for its `load` event. -/
def stAttached : BgState := ⟨some WS_OPEN, 0, [(1, ⟨true, 1⟩)], [(1, [("load", [5])])]⟩

/-- The message types the `handleServerMessage` switch recognizes. -/
def knownTypes : List String :=
  ["GET_ACTIVE_TAB", "ATTACH_DEBUGGER", "DETACH_DEBUGGER", "CDP_COMMAND", "EVALUATE",
   "NAVIGATE", "CREATE_TAB", "CLOSE_TAB", "GET_TAB_INFO", "GET_ALL_TABS", "SET_COOKIES",
   "GET_COOKIES", "INJECT_SCRIPT", "REGISTER_CDP_LISTENER", "UNREGISTER_CDP_LISTENER",
   "PONG"]

/-- An inbound envelope with a type the switch does not recognize. -/
def msgBogus : InMsg := { id := some 7, type := "BOGUS" }

/-- A sample request envelope. -/
def msgActiveTab : InMsg := { id := some 3, type := "GET_ACTIVE_TAB" }

/-- C7: the delay before reconnection attempt `i` is
`min(1000 * 2 ^ i, 10000)`, the delay sequence is non-decreasing and
bounded by the 10000 ms cap, and once the counter has reached
`MAX_RECONNECT_ATTEMPTS` the close handler schedules no further
attempt. -/
theorem reconnect_backoff_c7 :
    (∀ n, n < MAX_RECONNECT_ATTEMPTS →
      reconnectOnClose n = some (n + 1, min (1000 * 2 ^ (n + 1)) 10000)) ∧
    (∀ i j, i ≤ j → reconnectDelay i ≤ reconnectDelay j) ∧
    (∀ i, reconnectDelay i ≤ 10000) ∧
    (∀ n, MAX_RECONNECT_ATTEMPTS ≤ n → reconnectOnClose n = none) := by
  refine ⟨?_, ?_, ?_, ?_⟩
  · intro n hn
    simp [reconnectOnClose, reconnectDelay, hn]
  · intro i j hij
    simp only [reconnectDelay]
    exact min_le_min
      (Nat.mul_le_mul_left _ (Nat.pow_le_pow_right (by norm_num) hij)) le_rfl
  · intro i
    simp only [reconnectDelay]
    exact min_le_right _ _
  · intro n hn
    simp [reconnectOnClose, Nat.not_lt.mpr hn]

/-- Witness for C7 at concrete attempt counters. -/
theorem reconnect_backoff_c7_witness :
    reconnectOnClose 2 = some (3, min (1000 * 2 ^ 3) 10000) ∧
    reconnectDelay 1 ≤ reconnectDelay 4 ∧
    reconnectDelay 4 ≤ 10000 ∧
    reconnectOnClose 7 = none :=
  ⟨reconnect_backoff_c7.1 2 (by decide),
   reconnect_backoff_c7.2.1 1 4 (by decide),
   reconnect_backoff_c7.2.2.1 4,
   reconnect_backoff_c7.2.2.2 7 (by decide)⟩

/-- C10: a message produced while the server socket is absent or not in
the `OPEN` state is dropped on the spot — `send` is never called, no
queue exists, and the state is returned unchanged. -/
theorem send_drop_when_not_open_c10 (st : BgState) (m : OutMsg)
    (h : st.serverWs ≠ some WS_OPEN) : sendToServer st m = (none, st) := by
  unfold sendToServer
  cases hws : st.serverWs with
  | none => rfl
  | some rs =>
    have hrs : ¬ rs = WS_OPEN := fun hrs => h (by rw [hws, hrs])
    simp [hrs]

/-- Witness for C10 with a closed (null) server socket. -/
theorem send_drop_when_not_open_c10_witness :
    stClosed.serverWs ≠ some WS_OPEN ∧
    sendToServer stClosed { type := "RESPONSE" } = (none, stClosed) :=
  ⟨by decide, send_drop_when_not_open_c10 stClosed { type := "RESPONSE" } (by decide)⟩

/-- C3: attaching to an already-attached tab returns
`{attached: true, alreadyAttached: true}`, leaves the whole background
state unchanged, performs no external call (in particular no second
`chrome.debugger.attach`), and does so for every number of repeated
attach calls. -/
theorem attach_idempotent_c3 (env : Env) (st : BgState) (t : Nat)
    (h : attachedIn st t = true) :
    attachDebugger env st t =
      (Except.ok (JVal.obj [("attached", JVal.bool true), ("alreadyAttached", JVal.bool true)]),
       st, []) ∧
    ∀ n, attachIterate env t n st = st := by
  have h1 : attachDebugger env st t =
      (Except.ok (JVal.obj [("attached", JVal.bool true), ("alreadyAttached", JVal.bool true)]),
       st, []) := by
    simp [attachDebugger, h]
  refine ⟨h1, ?_⟩
  intro n
  induction n with
  | zero => rfl
  | succ n ih => simp [attachIterate, h1, ih]

/-- Witness for C3 on an attached tab, iterated three times. -/
theorem attach_idempotent_c3_witness :
    attachedIn stAttached 1 = true ∧
    attachDebugger env0 stAttached 1 =
      (Except.ok (JVal.obj [("attached", JVal.bool true), ("alreadyAttached", JVal.bool true)]),
       stAttached, []) ∧
    attachIterate env0 1 3 stAttached = stAttached :=
  ⟨by rfl, (attach_idempotent_c3 env0 stAttached 1 (by rfl)).1,
   (attach_idempotent_c3 env0 stAttached 1 (by rfl)).2 3⟩

/-- C4 counterexample: detaching a never-attached tab does not return
the reason string `"not attached"` claimed by the spec — the script
returns `reason: 'Not attached'` (capital N). -/
theorem detach_unattached_counterexample_c4 :
    detachDebugger env0 stEmpty 5 ≠
      (Except.ok (JVal.obj [("detached", JVal.bool false), ("reason", JVal.str "not attached")]),
       stEmpty, []) ∧
    detachDebugger env0 stEmpty 5 =
      (Except.ok (JVal.obj [("detached", JVal.bool false), ("reason", JVal.str "Not attached")]),
       stEmpty, []) := by
  constructor
  · intro hEq
    have h2 := congrArg
      (fun x : Except String JVal × BgState × List ExtCall =>
        match x.1 with
        | Except.ok v => jGet v "reason"
        | Except.error _ => none) hEq
    simp [detachDebugger, attachedIn, stEmpty, mapGet, jGet] at h2
  · simp [detachDebugger, attachedIn, stEmpty, mapGet]

/-- C4 (amended: the reason string is `'Not attached'`): detaching a
tab with no attached session returns the non-error result
`{detached: false, reason: 'Not attached'}`, performs no external call,
and leaves the session and subscription state unchanged. -/
theorem detach_unattached_forgiving_c4 (env : Env) (st : BgState) (t : Nat)
    (h : attachedIn st t = false) :
    detachDebugger env st t =
      (Except.ok (JVal.obj [("detached", JVal.bool false), ("reason", JVal.str "Not attached")]),
       st, []) := by
  simp [detachDebugger, h]

/-- Witness for C4 on a never-attached tab. -/
theorem detach_unattached_forgiving_c4_witness :
    attachedIn stEmpty 5 = false ∧
    detachDebugger env0 stEmpty 5 =
      (Except.ok (JVal.obj [("detached", JVal.bool false), ("reason", JVal.str "Not attached")]),
       stEmpty, []) :=
  ⟨by rfl, detach_unattached_forgiving_c4 env0 stEmpty 5 (by rfl)⟩

/-- C2 counterexample: a CDP command against a tab with no live
session does not fail — the script auto-attaches and executes the
command; here the command is executed (it appears in the call trace)
and succeeds. -/
theorem cdp_unattached_counterexample_c2 :
    attachedIn stEmpty 1 = false ∧
    (sendCDPCommand env0 stEmpty 1 "Page.navigate" (JVal.obj [])).1 = Except.ok JVal.null ∧
    ExtCall.sendCommand 1 "Page.navigate" ∈
      (sendCDPCommand env0 stEmpty 1 "Page.navigate" (JVal.obj [])).2.2 := by
  refine ⟨rfl, rfl, ?_⟩
  simp [sendCDPCommand, attachDebugger, attachedIn, stEmpty, mapGet, env0,
    setupCDPEventForwarding, mapSet]

/-- C2 (amended: there is no `NotAttachedError`; `sendCDPCommand`
against an unattached tab auto-attaches first): when the attach call
fails, its error propagates and the command is never issued; when it
succeeds, the command is issued against the freshly attached session
and its outcome is returned verbatim. -/
theorem cdp_autoattach_c2 (env : Env) (st : BgState) (t : Nat) (m : String) (p : JVal)
    (h : attachedIn st t = false) :
    (∀ e, env.attach t = Except.error e →
      sendCDPCommand env st t m p = (Except.error e, st, [ExtCall.attach t])) ∧
    (env.attach t = Except.ok () →
      (sendCDPCommand env st t m p).1 = env.sendCommand t m p ∧
      (sendCDPCommand env st t m p).2.2 =
        [ExtCall.attach t, ExtCall.addOnEvent, ExtCall.sendCommand t m]) := by
  constructor
  · intro e he
    simp [sendCDPCommand, attachDebugger, h, he]
  · intro hok
    simp [sendCDPCommand, attachDebugger, h, hok, setupCDPEventForwarding,
      mapGet_mapSet_self]

/-- Witness for C2 (amended) on a never-attached tab whose attach
succeeds. -/
theorem cdp_autoattach_c2_witness :
    attachedIn stEmpty 1 = false ∧
    env0.attach 1 = Except.ok () ∧
    (sendCDPCommand env0 stEmpty 1 "Page.enable" JVal.null).1 =
      env0.sendCommand 1 "Page.enable" JVal.null ∧
    (sendCDPCommand env0 stEmpty 1 "Page.enable" JVal.null).2.2 =
      [ExtCall.attach 1, ExtCall.addOnEvent, ExtCall.sendCommand 1 "Page.enable"] :=
  ⟨by rfl, by rfl,
   ((cdp_autoattach_c2 env0 stEmpty 1 "Page.enable" JVal.null (by rfl)).2 (by rfl)).1,
   ((cdp_autoattach_c2 env0 stEmpty 1 "Page.enable" JVal.null (by rfl)).2 (by rfl)).2⟩

theorem RegWfB_spec {r : CDPRegistry} (hwf : RegWfB r = true) {t : Nat}
    {tab : List (String × List Nat)} (hrt : mapGet r t = some tab)
    {e : String} {s : List Nat} (hte : mapGet tab e = some s) : s ≠ [] := by
  have h1 := mapGet_mem hrt
  have h2 := mapGet_mem hte
  unfold RegWfB at hwf
  rw [List.all_eq_true] at hwf
  have h3 := hwf _ h1
  rw [List.all_eq_true] at h3
  have h4 := h3 _ h2
  simpa using h4

theorem subscribedB_regAdd_self (r : CDPRegistry) (t : Nat) (e : String) (l : Nat) :
    subscribedB (regAdd r t e l) t e l = true := by
  unfold regAdd subscribedB
  cases hrt : mapGet r t with
  | none => simp [hrt, mapGet, mapGet_mapSet_self, setAdd_mem_self]
  | some tab =>
    cases hte : mapGet tab e with
    | none => simp [hrt, hte, mapGet, mapGet_mapSet_self, setAdd_mem_self]
    | some s => simp [hrt, hte, mapGet, mapGet_mapSet_self, setAdd_mem_self]

theorem regAdd_of_subscribed {r : CDPRegistry} {t : Nat} {e : String} {l : Nat}
    (h : subscribedB r t e l = true) : regAdd r t e l = r := by
  unfold subscribedB at h
  cases hrt : mapGet r t with
  | none => rw [hrt] at h; simp at h
  | some tab =>
    simp only [hrt] at h
    cases hte : mapGet tab e with
    | none => simp [hte] at h
    | some s =>
      simp only [hte, decide_eq_true_eq] at h
      unfold regAdd
      simp [hrt, hte, setAdd_of_mem h, mapSet_of_mapGet_eq hte, mapSet_of_mapGet_eq hrt]

theorem regRemove_of_not_subscribed {r : CDPRegistry} {t : Nat} {e : String} {l : Nat}
    (hwf : RegWfB r = true) (h : subscribedB r t e l = false) : regRemove r t e l = r := by
  unfold subscribedB at h
  unfold regRemove
  cases hrt : mapGet r t with
  | none => simp [hrt]
  | some tab =>
    simp only [hrt] at h ⊢
    cases hte : mapGet tab e with
    | none => simp [hte]
    | some s =>
      simp only [hte, decide_eq_false_iff_not] at h
      have hs : s ≠ [] := RegWfB_spec hwf hrt hte
      have hdel : setDel s l = s := setDel_of_not_mem h
      have hlen : ¬ s.length = 0 := by simpa [List.length_eq_zero] using hs
      simp [hte, hdel, hlen, mapSet_of_mapGet_eq hte, mapSet_of_mapGet_eq hrt]

/-- C8: a duplicate subscribe leaves the listener registry exactly
equal to what a single subscribe produces, and an unsubscribe of a
non-member leaves a well-formed registry unchanged (and never fails —
`unregisterCDPListener` always answers `{unregistered: true}`). -/
theorem subscription_idempotent_c8 :
    (∀ (r : CDPRegistry) (t : Nat) (e : String) (l : Nat),
      regAdd (regAdd r t e l) t e l = regAdd r t e l) ∧
    (∀ (r : CDPRegistry) (t : Nat) (e : String) (l : Nat),
      RegWfB r = true → subscribedB r t e l = false → regRemove r t e l = r) := by
  constructor
  · intro r t e l
    exact regAdd_of_subscribed (subscribedB_regAdd_self r t e l)
  · intro r t e l hwf h
    exact regRemove_of_not_subscribed hwf h

/-- Witness for C8 on a registry holding one subscriber. -/
theorem subscription_idempotent_c8_witness :
    regAdd (regAdd [(1, [("load", [5])])] 1 "load" 7) 1 "load" 7 =
      regAdd [(1, [("load", [5])])] 1 "load" 7 ∧
    RegWfB [(1, [("load", [5])])] = true ∧
    subscribedB [(1, [("load", [5])])] 1 "load" 7 = false ∧
    regRemove [(1, [("load", [5])])] 1 "load" 7 = [(1, [("load", [5])])] :=
  ⟨subscription_idempotent_c8.1 [(1, [("load", [5])])] 1 "load" 7,
   by rfl, by rfl,
   subscription_idempotent_c8.2 [(1, [("load", [5])])] 1 "load" 7 (by rfl) (by rfl)⟩

/-- C5: a debugger event for the (tab, eventName) pair is forwarded
(as a `CDP_EVENT` envelope carrying exactly that tab and event name)
precisely when some subscriber is registered for that exact pair in a
well-formed registry; with no subscriber for the pair, the event is
dropped on the spot — the forwarding closure keeps no buffer and
mutates no state, so there is no later replay; events from other tabs
are ignored by this closure. -/
theorem event_filtering_c5 (st : BgState) (t : Nat) (e : String) (p : JVal)
    (hwf : RegWfB st.cdpEventListeners = true) :
    ((∃ l, subscribedB st.cdpEventListeners t e l = true) →
      cdpForwardListener t st t e p =
        some { type := "CDP_EVENT", tabId := some t, method := some e, params := some p }) ∧
    ((∀ l, subscribedB st.cdpEventListeners t e l = false) →
      cdpForwardListener t st t e p = none) ∧
    (∀ src, src ≠ t → cdpForwardListener t st src e p = none) := by
  refine ⟨?_, ?_, ?_⟩
  · rintro ⟨l, hl⟩
    unfold subscribedB at hl
    cases hrt : mapGet st.cdpEventListeners t with
    | none => rw [hrt] at hl; simp at hl
    | some tab =>
      simp only [hrt] at hl
      cases hte : mapGet tab e with
      | none => simp [hte] at hl
      | some s => simp [cdpForwardListener, hrt, hte]
  · intro hnone
    cases hrt : mapGet st.cdpEventListeners t with
    | none => simp [cdpForwardListener, hrt]
    | some tab =>
      cases hte : mapGet tab e with
      | none => simp [cdpForwardListener, hrt, hte]
      | some s =>
        exfalso
        have hs : s ≠ [] := RegWfB_spec hwf hrt hte
        cases s with
        | nil => exact hs rfl
        | cons a s' =>
          have := hnone a
          simp [subscribedB, hrt, hte] at this
  · intro src hsrc
    simp [cdpForwardListener, hsrc]

/-- Witness for C5: the `load` subscriber receives the `load` event, a
`paint` event on the same tab is dropped, and an event from a foreign
tab is ignored. -/
theorem event_filtering_c5_witness :
    RegWfB stAttached.cdpEventListeners = true ∧
    cdpForwardListener 1 stAttached 1 "load" JVal.null =
      some { type := "CDP_EVENT", tabId := some 1, method := some "load",
             params := some JVal.null } ∧
    cdpForwardListener 1 stAttached 1 "paint" JVal.null = none ∧
    cdpForwardListener 1 stAttached 2 "load" JVal.null = none :=
  ⟨by rfl,
   (event_filtering_c5 stAttached 1 "load" JVal.null (by rfl)).1 ⟨5, by rfl⟩,
   (event_filtering_c5 stAttached 1 "paint" JVal.null (by rfl)).2.1 (fun _ => rfl),
   (event_filtering_c5 stAttached 1 "load" JVal.null (by rfl)).2.2 2 (by decide)⟩

/-- C9: on every path that destroys a session — a successful
`detachDebugger`, the `chrome.debugger.onDetach` notification, and the
`chrome.tabs.onRemoved` tab-close notification — the tab's whole
event-listener map is removed along with the session, so no
subscription entry for that tab remains. -/
theorem session_cleanup_c9 :
    (∀ (env : Env) (st : BgState) (t : Nat),
      attachedIn st t = true → env.detach t = Except.ok () →
      mapGet (detachDebugger env st t).2.1.activeSessions t = none ∧
      mapGet (detachDebugger env st t).2.1.cdpEventListeners t = none) ∧
    (∀ (st : BgState) (t : Nat) (reason : String),
      (mapGet st.activeSessions t).isSome = true →
      mapGet (onDebuggerDetach st t reason).1.activeSessions t = none ∧
      mapGet (onDebuggerDetach st t reason).1.cdpEventListeners t = none) ∧
    (∀ (st : BgState) (t : Nat),
      (mapGet st.activeSessions t).isSome = true →
      mapGet (onTabRemoved st t).1.activeSessions t = none ∧
      mapGet (onTabRemoved st t).1.cdpEventListeners t = none) := by
  refine ⟨?_, ?_, ?_⟩
  · intro env st t h hok
    simp [detachDebugger, h, hok, mapGet_mapDelete_self]
  · intro st t reason h
    simp [onDebuggerDetach, h, mapGet_mapDelete_self]
  · intro st t h
    simp [onTabRemoved, h, mapGet_mapDelete_self]

/-- Witness for C9 on an attached tab with one subscription, along all
three destruction paths. -/
theorem session_cleanup_c9_witness :
    (mapGet (detachDebugger env0 stAttached 1).2.1.activeSessions 1 = none ∧
     mapGet (detachDebugger env0 stAttached 1).2.1.cdpEventListeners 1 = none) ∧
    (mapGet (onDebuggerDetach stAttached 1 "target_closed").1.activeSessions 1 = none ∧
     mapGet (onDebuggerDetach stAttached 1 "target_closed").1.cdpEventListeners 1 = none) ∧
    (mapGet (onTabRemoved stAttached 1).1.activeSessions 1 = none ∧
     mapGet (onTabRemoved stAttached 1).1.cdpEventListeners 1 = none) :=
  ⟨session_cleanup_c9.1 env0 stAttached 1 (by rfl) (by rfl),
   session_cleanup_c9.2.1 stAttached 1 "target_closed" (by rfl),
   session_cleanup_c9.2.2 stAttached 1 (by rfl)⟩

theorem dispatch_isSome_of_ne_pong (env : Env) (st : BgState) (msg : InMsg)
    (h : msg.type ≠ "PONG") : (dispatch env st msg).1.isSome = true := by
  unfold dispatch
  split <;> simp_all [asReq]

/-- C1: every inbound request (every type except the `PONG` keepalive,
which produces no response) is answered with a single `RESPONSE`
envelope whose `id` is exactly the request's `id`, on the success path
and on the failure path alike, for every platform outcome and every
starting state — so correlation survives any response ordering. -/
theorem response_id_echo_c1 (env : Env) (st : BgState) (msg : InMsg)
    (h : msg.type ≠ "PONG") :
    ∃ out st1 cs, handleServerMessage env st msg = (some out, st1, cs) ∧
      out.id = msg.id ∧ out.type = "RESPONSE" := by
  have hd := dispatch_isSome_of_ne_pong env st msg h
  unfold handleServerMessage
  rcases hdisp : dispatch env st msg with ⟨o, st1, cs⟩
  rw [hdisp] at hd
  cases o with
  | none => simp at hd
  | some r =>
    cases r with
    | ok v => exact ⟨_, st1, cs, rfl, rfl, rfl⟩
    | error e => exact ⟨_, st1, cs, rfl, rfl, rfl⟩

/-- Witness for C1 on a concrete request. -/
theorem response_id_echo_c1_witness :
    ∃ out st1 cs, handleServerMessage env0 stEmpty msgActiveTab = (some out, st1, cs) ∧
      out.id = msgActiveTab.id ∧ out.type = "RESPONSE" :=
  response_id_echo_c1 env0 stEmpty msgActiveTab (by decide)

theorem dispatch_unknown (env : Env) (st : BgState) (msg : InMsg)
    (h : msg.type ∉ knownTypes) :
    dispatch env st msg =
      (some (Except.error ("Unknown message type: " ++ msg.type)), st, []) := by
  unfold dispatch
  split <;> simp_all [knownTypes]

/-- C6 counterexample: an envelope with the unknown type `BOGUS` is
not connection-fatal — `handleServerMessage` catches the thrown error
and answers with an ordinary per-request `RESPONSE` failure carrying
the request's `id`, leaving the whole background state (its open
server socket included) unchanged; no disconnect is triggered. -/
theorem unknown_type_counterexample_c6 :
    handleServerMessage env0 stEmpty msgBogus =
      (some { id := some 7, type := "RESPONSE",
              error := some "Unknown message type: BOGUS", success := some false },
       stEmpty, []) ∧
    stEmpty.serverWs = some WS_OPEN := by
  constructor
  · rfl
  · rfl

/-- C6 (amended: an unknown message type is a per-request failure, not
connection-fatal): the handler answers with an error `RESPONSE`
carrying the request's `id` and the message
`Unknown message type: <type>`, performs no external call, and leaves
the state — the server socket included — unchanged, so the connection
stays up. -/
theorem unknown_type_plain_failure_c6 (env : Env) (st : BgState) (msg : InMsg)
    (h : msg.type ∉ knownTypes) :
    handleServerMessage env st msg =
      (some { id := msg.id, type := "RESPONSE",
              error := some ("Unknown message type: " ++ msg.type), success := some false },
       st, []) := by
  unfold handleServerMessage
  rw [dispatch_unknown env st msg h]

/-- Witness for C6 (amended) on the `BOGUS` envelope. -/
theorem unknown_type_plain_failure_c6_witness :
    msgBogus.type ∉ knownTypes ∧
    handleServerMessage env0 stEmpty msgBogus =
      (some { id := msgBogus.id, type := "RESPONSE",
              error := some ("Unknown message type: " ++ msgBogus.type),
              success := some false },
       stEmpty, []) :=
  ⟨by decide, unknown_type_plain_failure_c6 env0 stEmpty msgBogus (by decide)⟩

end Stagehand
